import Mathlib

set_option maxHeartbeats 1000000

/-!
Shallow embedding of the retrieval pipeline of `src/app.py` (a Netflix
chatbot): filter extraction from a query, structured catalog filtering,
semantic fallback ranking, prompt building, and the external generator
call.  Strings are modelled as lists of characters; the NLP engine, the
embedding model and the external generator are collaborators and appear
as explicit parameters.
-/

/-- Python strings, modelled as lists of characters. -/
abbrev Str := List Char

/-- Python `str.lower()` (ASCII case folding suffices for this program). -/
def lowerStr (s : Str) : Str := s.map Char.toLower

/-- Helper for `titleStr`: the boolean records whether the previous
character was alphabetic. -/
def titleAux : Bool → Str → Str
  | _, [] => []
  | prev, c :: cs =>
    (if c.isAlpha then (if prev then c.toLower else c.toUpper) else c) :: titleAux c.isAlpha cs

/-- Python `str.title()`: uppercase each letter that follows a
non-letter, lowercase the remaining letters. -/
def titleStr (s : Str) : Str := titleAux false s

/-- A regex word character (`\w`): alphanumeric or underscore. -/
def isWordChar (c : Char) : Bool := c.isAlphanum || c = '_'

/-- The group `(19|20)\d{2}` of the year regex: a four-character token
`19xx` or `20xx`. -/
def isYearTok (y : Str) : Bool :=
  match y with
  | [c1, c2, c3, c4] =>
    (((c1 == '1') && (c2 == '9')) || ((c1 == '2') && (c2 == '0')))
      && c3.isDigit && c4.isDigit
  | _ => false

/-- The leading `\b` of the year regex, as a test on the character just
before the match position (`none` at the start of the string): since the
match starts with a digit, the boundary holds iff that character is
absent or not a word character. -/
def prevOk : Option Char → Bool
  | none => true
  | some p => !isWordChar p

/-- The trailing `\b` of the year regex, as a test on the text after the
match: since the match ends with a digit, the boundary holds iff the
following character is absent or not a word character. -/
def boundaryAfter (b : Str) : Bool :=
  match b.head? with
  | none => true
  | some c => !isWordChar c

/-- Model of `re.search(r"\b(19|20)\d{2}\b", s)` from `extract_filters`
(src/app.py line 41): scan positions left to right; at each position the
pattern matches four characters `19xx`/`20xx` with a word boundary on
both sides.  `prev` is the character just before the current position
(`none` at the start of the string).  Returns the matched text of the
leftmost match. -/
def findYear : Option Char → Str → Option Str
  | prev, c1 :: c2 :: c3 :: c4 :: rest =>
    if prevOk prev && isYearTok [c1, c2, c3, c4] && boundaryAfter rest then
      some [c1, c2, c3, c4]
    else
      findYear (some c1) (c2 :: c3 :: c4 :: rest)
  | _, c :: cs => findYear (some c) cs
  | _, [] => none

/-- A spaCy entity: a label (`GPE` for geo-political entities) and its
surface text. -/
structure SpacyEnt where
  label : Str
  text : Str
deriving DecidableEq

/-- A spaCy document: its entities and its tokens (each token given by
its text). -/
structure Doc where
  ents : List SpacyEnt
  tokens : List Str
deriving DecidableEq

/-- The `filters` dictionary built by `extract_filters`
(src/app.py lines 34-39).  `none` is Python `None`. -/
structure Filters where
  type : Option Str
  country : Option Str
  listed_in : Option Str
  release_year : Option Str
deriving DecidableEq

/-- The fixed genre vocabulary of `extract_filters` (src/app.py lines 49-50). -/
def genres : List Str :=
  ["action".data, "comedy".data, "drama".data, "horror".data, "romance".data,
   "thriller".data, "documentary".data, "sci-fi".data, "crime".data, "kids".data,
   "family".data, "anime".data]

/-- Body of `extract_filters` after the spaCy document has been built
(src/app.py lines 34-60).  The year regex and the `movie`/`show`/`series`
containment tests run on the original `user_query`; the entity and token
scans run over the document (built from the lowercased query) with the
source's overwrite-in-loop (last match wins) behaviour, modelled by a
left fold. -/
def extractFromDoc (doc : Doc) (user_query : Str) : Filters :=
  let ry := findYear none user_query
  let country := doc.ents.foldl
    (fun acc ent => if ent.label = "GPE".data then some (titleStr ent.text) else acc) none
  let genre := doc.tokens.foldl
    (fun acc tok => if lowerStr tok ∈ genres then some (titleStr tok) else acc) none
  let ty :=
    if "movie".data <:+: user_query then some "Movie".data
    else if "show".data <:+: user_query ∨ "series".data <:+: user_query then
      some "TV Show".data
    else none
  ⟨ty, country, genre, ry⟩

/-- Model of `extract_filters` (src/app.py lines 32-60): the spaCy pipeline `nlp`
is an external collaborator, applied to the lowercased query. -/
def extract_filters (nlp : Str → Doc) (user_query : Str) : Filters :=
  extractFromDoc (nlp (lowerStr user_query)) user_query

/-- One catalog row (the columns of `df` that the program reads).
All cells are text (missing values were filled with the empty string;
`release_year` is compared through `astype(str)`, so it is kept in its
string form). -/
structure Entry where
  title : Str
  description : Str
  type : Str
  country : Str
  listed_in : Str
  release_year : Str
deriving DecidableEq, Inhabited

/-- Characters that Python's `re` treats specially (outside character
classes). -/
def isRegexMeta (c : Char) : Bool :=
  c = '.' || c = '^' || c = '$' || c = '*' || c = '+' || c = '?' ||
    c = '\x7b' || c = '\x7d' || c = '[' || c = ']' || c = '\\' ||
    c = '|' || c = '(' || c = ')'

/-- Dot-literal regex patterns: every character is either the wildcard
`.` or a non-special literal.  On this fragment `re.search` is exactly
the sliding-window match `dotSearch` below. -/
def isDotLit (pat : Str) : Bool := pat.all (fun c => c = '.' || !isRegexMeta c)

/-- One anchored match attempt of a dot-literal pattern: `.` matches any
character except a newline, any other character matches itself. -/
def dotWindow : Str → Str → Bool
  | [], _ => true
  | _ :: _, [] => false
  | p :: ps, c :: cs => (if p = '.' then c ≠ '\n' else p = c) && dotWindow ps cs

/-- `re.search` of a dot-literal pattern: try every start position. -/
def dotSearch : Str → Str → Bool
  | pat, [] => dotWindow pat []
  | pat, c :: cs => dotWindow pat (c :: cs) || dotSearch pat cs

/-- Model of `Series.str.contains(pat, case=False, na=False)`
(src/app.py lines 68 and 70).  `regex=True` is the pandas default, so
the pattern is a regular expression, not a literal substring.
`case=False` is modelled by lowercasing both sides at the call sites.
On dot-literal patterns Python's `re.search` is exactly the
sliding-window `dotSearch`; the behaviour on every other pattern
(quantifiers, classes, anchors, escapes, alternation — and invalid
patterns, which raise `re.error`) is outside this model and is
represented by the abstract regex engine `reSearch`, passed as a
parameter so that no theorem silently fixes it. -/
def pdContains (reSearch : Str → Str → Bool) (pat s : Str) : Bool :=
  if isDotLit pat then dotSearch pat s else reSearch pat s

/-- Model of `filter_data` (src/app.py lines 63-73), parametrized by the
abstract part `reSearch` of the regex engine (see `pdContains`).  Each
Python guard `if filters[...]:` is falsy both for `None` and for the
empty string, hence the extra emptiness tests.  `type` is a
case-insensitive exact match, `country` and `listed_in` are
case-insensitive `str.contains` regex matches, `release_year` is string
equality. -/
def filter_data (reSearch : Str → Str → Bool) (catalog : List Entry)
    (filters : Filters) : List Entry :=
  let t1 := match filters.type with
    | none => catalog
    | some v =>
      if v = [] then catalog
      else catalog.filter (fun e => lowerStr e.type = lowerStr v)
  let t2 := match filters.country with
    | none => t1
    | some v =>
      if v = [] then t1
      else t1.filter (fun e => pdContains reSearch (lowerStr v) (lowerStr e.country))
  let t3 := match filters.listed_in with
    | none => t2
    | some v =>
      if v = [] then t2
      else t2.filter (fun e => pdContains reSearch (lowerStr v) (lowerStr e.listed_in))
  let t4 := match filters.release_year with
    | none => t3
    | some v =>
      if v = [] then t3
      else t3.filter (fun e => e.release_year = v)
  t4

/-- One bullet line of the prompt (src/app.py line 84):
`- **{title}** ({release_year}): {description}` plus a newline. -/
def bulletLine (e : Entry) : Str :=
  "- **".data ++ e.title ++ "** (".data ++ e.release_year ++ "): ".data
    ++ e.description ++ "\n".data

/-- Model of `build_prompt` (src/app.py lines 76-86).  The loop over the first
three results is the join of the mapped bullet lines. -/
def build_prompt (query : Str) (results : List Entry) : Str :=
  if results.isEmpty then
    "User asked: '".data ++ query
      ++ "'\nThere were no matching results in the Netflix database.".data
  else
    "You are a helpful Netflix assistant. User asked: \"".data ++ query
      ++ "\".\n".data
      ++ "Based on the database, here are some matching titles:\n\n".data
      ++ ((results.take 3).map bulletLine).flatten
      ++ "\nGive a short natural reply to the user.".data

/-- Behaviour of the external `subprocess.run` call inside
`query_mistral`: either the process completed (with a return code and
captured stdout — `subprocess.run` without `check=True` does not raise
on a non-zero code), or an exception was raised (`TimeoutExpired`
included), carrying its rendered message. -/
inductive RunOutcome where
  | completed (returncode : Int) (stdout : Str)
  | raised (err : Str)
deriving DecidableEq

/-- Python `str.strip()`: drop whitespace from both ends. -/
def pyStrip (s : Str) : Str :=
  ((s.dropWhile Char.isWhitespace).reverse.dropWhile Char.isWhitespace).reverse

/-- Model of `query_mistral` (src/app.py lines 89-99), parametrized by the
outcome of the external call.  A completed run returns its stripped
stdout; any raised exception is caught and rendered as the diagnostic
string. -/
def query_mistral (prompt : Str) (outcome : RunOutcome) : Str :=
  match outcome with
  | .completed _ stdout => pyStrip stdout
  | .raised e =>
    "⚠️ Mistral call failed:\n\n".data ++ e ++ "\n\nPrompt was:\n".data ++ prompt

/-- The order on catalog indices realized by a stable ascending argsort
of `sims`: ascending similarity, ties broken by ascending index.  This
relation is total, transitive and antisymmetric, so a list of distinct
indices sorted by it is unique. -/
def rankLE (sims : List ℚ) (i j : Nat) : Prop :=
  sims.getD i 0 < sims.getD j 0 ∨ (sims.getD i 0 = sims.getD j 0 ∧ i ≤ j)

instance (sims : List ℚ) : DecidableRel (rankLE sims) := fun i j => by
  unfold rankLE; infer_instance

instance (sims : List ℚ) : IsTotal Nat (rankLE sims) where
  total i j := by
    unfold rankLE
    rcases lt_trichotomy (sims.getD i 0) (sims.getD j 0) with h | h | h
    · exact Or.inl (Or.inl h)
    · rcases Nat.le_total i j with hij | hij
      · exact Or.inl (Or.inr ⟨h, hij⟩)
      · exact Or.inr (Or.inr ⟨h.symm, hij⟩)
    · exact Or.inr (Or.inl h)

instance (sims : List ℚ) : IsTrans Nat (rankLE sims) where
  trans i j k hij hjk := by
    rcases hij with h1 | ⟨h1, h1'⟩ <;> rcases hjk with h2 | ⟨h2, h2'⟩
    · exact Or.inl (h1.trans h2)
    · exact Or.inl (h2 ▸ h1)
    · exact Or.inl (h1 ▸ h2)
    · exact Or.inr ⟨h1.trans h2, h1'.trans h2'⟩

/-- Model of `np.argsort(sims)` (src/app.py line 110), modelled as a stable
argsort: indices sorted by ascending similarity, ties by ascending
index (numpy leaves tie order to the sort kind; the stable model is the
one numpy exhibits on small arrays and the one `kind="stable"`
guarantees).  Since `rankLE` is total, transitive and antisymmetric,
the sorted result does not depend on the sorting algorithm. -/
def argsort (sims : List ℚ) : List Nat :=
  List.insertionSort (rankLE sims) (List.range sims.length)

/-- Model of `np.argsort(sims)[-5:][::-1]` (src/app.py line 110): the last
`min 5 n` indices of the ascending argsort, reversed. -/
def rank (sims : List ℚ) : List Nat :=
  ((argsort sims).drop (sims.length - 5)).reverse

/-- Model of `df.iloc[top_idx]` (src/app.py line 111): the catalog rows selected
by `rank`, in rank order. -/
def semanticFallback (catalog : List Entry) (sims : List ℚ) : List Entry :=
  (rank sims).map (fun i => catalog.getD i default)

/-- The fixed process-wide context of `chat`: the loaded catalog, the
spaCy pipeline, and the similarity profile `sims q` — the cosine
similarities between the embedding of query `q` and the precomputed
catalog embeddings (`cosine_similarity(model.encode([q]), embeddings)[0]`,
src/app.py lines 108-109). -/
structure Env where
  catalog : List Entry
  nlp : Str → Doc
  sims : Str → List ℚ

/-- The result set computed by `chat` (src/app.py lines 102-111):
structured filtering, with the semantic fallback when it is empty.
`reSearch` is the abstract part of the regex engine (see `pdContains`);
it is program code, not request state, so it is a parameter shared by
every run rather than an `Env` field. -/
def chatResults (reSearch : Str → Str → Bool) (env : Env) (query : Str) :
    List Entry :=
  let filters := extract_filters env.nlp query
  let filtered := filter_data reSearch env.catalog filters
  if filtered.isEmpty then semanticFallback env.catalog (env.sims query)
  else filtered

/-- The prompt handed to the generator by `chat` (src/app.py line 113). -/
def chatPrompt (reSearch : Str → Str → Bool) (env : Env) (query : Str) : Str :=
  build_prompt query (chatResults reSearch env query)

/-- Model of `chat` (src/app.py lines 102-115), parametrized by the outcome of
the external generator call. -/
def chat (reSearch : Str → Str → Bool) (env : Env) (query : Str)
    (outcome : RunOutcome) : Str :=
  query_mistral (chatPrompt reSearch env query) outcome

/-- The per-entry predicate that the sequential filters of `filter_data`
implement (source side): `type` case-insensitive equality, `country` and
`listed_in` case-insensitive `str.contains` regex matches via
`pdContains`, `release_year` string equality; a field is active when
present and non-empty (Python truthiness). -/
def matchesFiltersRe (reSearch : Str → Str → Bool) (filters : Filters)
    (e : Entry) : Bool :=
  (match filters.type with
    | none => true
    | some v => if v = [] then true else lowerStr e.type = lowerStr v)
  && (match filters.country with
    | none => true
    | some v =>
      if v = [] then true else pdContains reSearch (lowerStr v) (lowerStr e.country))
  && (match filters.listed_in with
    | none => true
    | some v =>
      if v = [] then true else pdContains reSearch (lowerStr v) (lowerStr e.listed_in))
  && (match filters.release_year with
    | none => true
    | some v => if v = [] then true else e.release_year = v)

/-! Spec-side definitions, used to state the claims. -/

/-- The conjunction of the active filter predicates exactly as the claim
and §4.2 of the spec word them, with `country` and `listed_in` read as
case-insensitive SUBSTRING matches.  This is the spec-side reading, kept
for comparison with the source-side `matchesFiltersRe`: the two coincide
exactly when the country and genre patterns contain no regex
metacharacters (see `c7_filter_conjunction`), and diverge on wildcard
patterns (see `c7_substring_cex`). -/
def matchesFilters (filters : Filters) (e : Entry) : Bool :=
  (match filters.type with
    | none => true
    | some v => if v = [] then true else lowerStr e.type = lowerStr v)
  && (match filters.country with
    | none => true
    | some v => if v = [] then true else lowerStr v <:+: lowerStr e.country)
  && (match filters.listed_in with
    | none => true
    | some v => if v = [] then true else lowerStr v <:+: lowerStr e.listed_in)
  && (match filters.release_year with
    | none => true
    | some v => if v = [] then true else e.release_year = v)

/-- The filters dictionary with every field unconstrained. -/
def emptyFilters : Filters := ⟨none, none, none, none⟩

/-- The text just before an occurrence ends at a word boundary. -/
def boundaryBefore (a : Str) : Bool :=
  match a.getLast? with
  | none => true
  | some c => !isWordChar c

/-- The query contains a word-boundary-delimited `19xx`/`20xx` token. -/
def HasYearToken (q : Str) : Prop :=
  ∃ a y b, q = a ++ y ++ b ∧ isYearTok y ∧ boundaryBefore a ∧ boundaryAfter b

/-- Version of `boundaryBefore` relativized to a scan that started after the
character `prev`: the boundary before `a ++ ...` inside `prev ++ a ++ ...`. -/
def boundaryBeforeCtx (prev : Option Char) (a : Str) : Bool :=
  match a.getLast? with
  | none => prevOk prev
  | some c => !isWordChar c

/-- A spaCy stub for concrete evaluations: no entities, no tokens
(the claims evaluated with it do not depend on entities or tokens). -/
def stubNlp : Str → Doc := fun _ => ⟨[], []⟩

/-- Split a string at newline characters (used to count the bulleted
lines of a prompt). -/
def splitNl : Str → List Str
  | [] => [[]]
  | c :: cs =>
    if c = '\n' then [] :: splitNl cs
    else
      match splitNl cs with
      | [] => [[c]]
      | l :: ls => (c :: l) :: ls

/-- Body of `bulletLine` without its trailing newline: the text of one bulleted
line of the prompt. -/
def bulletBody (e : Entry) : Str :=
  "- **".data ++ e.title ++ "** (".data ++ e.release_year ++ "): ".data
    ++ e.description

/-- An entry whose rendered fields contain no newline (so that it spans
exactly one bulleted line of the prompt). -/
def entryNlFree (e : Entry) : Prop :=
  '\n' ∉ e.title ∧ '\n' ∉ e.release_year ∧ '\n' ∉ e.description

instance (e : Entry) : Decidable (entryNlFree e) := by
  unfold entryNlFree; infer_instance

/-- A small concrete catalog entry, for concrete evaluations. -/
def sampleEntry : Entry :=
  ⟨"T".data, "d".data, "Movie".data, "US".data, "Action".data, "2010".data⟩

/-! Helper lemmas. -/

theorem filter_data_eq_filter (reSearch : Str → Str → Bool)
    (catalog : List Entry) (f : Filters) :
    filter_data reSearch catalog f =
      catalog.filter (fun e => matchesFiltersRe reSearch f e) := by
  obtain ⟨ty, co, li, ry⟩ := f
  rcases ty with _ | v1 <;> rcases co with _ | v2 <;> rcases li with _ | v3 <;>
      rcases ry with _ | v4 <;>
    simp only [filter_data, matchesFiltersRe] <;>
    (try split_ifs) <;>
    simp_all [List.filter_filter, Bool.and_assoc, Bool.and_comm, Bool.and_left_comm]

theorem dotWindow_front_iff (pat : Str) (h : '.' ∉ pat) :
    ∀ s : Str, dotWindow pat s = true ↔ pat <+: s := by
  induction pat with
  | nil =>
    intro s
    simp [dotWindow, List.nil_prefix]
  | cons p ps ih =>
    intro s
    have hp : p ≠ '.' := fun hc => h (by simp [hc])
    have hps : '.' ∉ ps := fun hm => h (List.mem_cons_of_mem _ hm)
    cases s with
    | nil =>
      simp [dotWindow]
    | cons c cs =>
      rw [dotWindow, if_neg hp]
      simp [List.cons_prefix_cons, ih hps cs, Bool.and_eq_true, and_comm]

theorem dotSearch_substr_iff (pat : Str) (h : '.' ∉ pat) :
    ∀ s : Str, dotSearch pat s = true ↔ pat <:+: s := by
  intro s
  induction s with
  | nil =>
    rw [dotSearch, dotWindow_front_iff pat h]
    simp [List.prefix_nil, List.infix_nil]
  | cons c cs ih =>
    rw [dotSearch]
    simp [Bool.or_eq_true, dotWindow_front_iff pat h, ih, List.infix_cons_iff]

theorem isYearTok_shape (y : Str) (h : isYearTok y = true) :
    ∃ d1 d2 d3 d4, y = [d1, d2, d3, d4] := by
  rcases y with _ | ⟨d1, _ | ⟨d2, _ | ⟨d3, _ | ⟨d4, _ | ⟨d5, tl⟩⟩⟩⟩⟩ <;>
    simp [isYearTok] at h
  exact ⟨d1, d2, d3, d4, rfl⟩

theorem findYear_short (prev : Option Char) (s : Str) (h : s.length < 4) :
    findYear prev s = none := by
  rcases s with _ | ⟨a, _ | ⟨b, _ | ⟨c, _ | ⟨d, tl⟩⟩⟩⟩
  · rfl
  · rfl
  · rfl
  · rfl
  · simp at h
    omega

theorem boundaryBeforeCtx_cons (prev : Option Char) (c : Char) (a : Str) :
    boundaryBeforeCtx prev (c :: a) = boundaryBeforeCtx (some c) a := by
  cases a with
  | nil => rfl
  | cons d l => rfl

theorem boundaryBeforeCtx_none (a : Str) :
    boundaryBeforeCtx none a = boundaryBefore a := by
  cases h : a.getLast? <;> simp [boundaryBeforeCtx, boundaryBefore, prevOk, h]

theorem findYear_sound : ∀ (prev : Option Char) (s : Str) (y : Str),
    findYear prev s = some y →
    isYearTok y = true ∧
      ∃ a b, s = a ++ y ++ b ∧ boundaryBeforeCtx prev a = true ∧
        boundaryAfter b = true ∧
        ∀ a' y' b', s = a' ++ y' ++ b' → isYearTok y' = true →
          boundaryBeforeCtx prev a' = true → boundaryAfter b' = true →
          a.length ≤ a'.length := by
  intro prev₀ s₀
  induction prev₀, s₀ using findYear.induct with
  | case1 prev c1 c2 c3 c4 rest hcond =>
    intro y hy
    rw [findYear, if_pos hcond] at hy
    injection hy with hy
    subst hy
    simp only [Bool.and_eq_true] at hcond
    exact ⟨hcond.1.2, [], rest, rfl, hcond.1.1, hcond.2,
      fun a' y' b' _ _ _ _ => Nat.zero_le _⟩
  | case2 prev c1 c2 c3 c4 rest hcond ih =>
    intro y hy
    rw [findYear, if_neg hcond] at hy
    obtain ⟨hTok, a, b, hdec, hB, hA, hmin⟩ := ih y hy
    refine ⟨hTok, c1 :: a, b, ?_, ?_, hA, ?_⟩
    · simp [← hdec]
    · rw [boundaryBeforeCtx_cons]
      exact hB
    · intro a' y' b' hdec' hTok' hB' hA'
      obtain ⟨d1, d2, d3, d4, rfl⟩ := isYearTok_shape y' hTok'
      cases a' with
      | nil =>
        simp only [List.nil_append, List.cons_append, List.cons.injEq] at hdec'
        obtain ⟨h1, h2, h3, h4, h5⟩ := hdec'
        subst h1; subst h2; subst h3; subst h4; subst h5
        exact absurd (by simp_all [boundaryBeforeCtx, prevOk]) hcond
      | cons c a'' =>
        rw [List.cons_append, List.cons_append] at hdec'
        injection hdec' with h1 h2
        subst h1
        rw [boundaryBeforeCtx_cons] at hB'
        have := hmin a'' [d1, d2, d3, d4] b' h2 hTok' hB' hA'
        simpa using Nat.succ_le_succ this
  | case3 x c cs hshape ih =>
    intro y hy
    have hlen : (c :: cs).length < 4 := by
      rcases cs with _ | ⟨d, _ | ⟨e, _ | ⟨f, tl⟩⟩⟩
      · simp
      · simp
      · simp
      · exact absurd rfl (hshape d e f tl)
    rw [findYear_short x (c :: cs) hlen] at hy
    exact absurd hy (by simp)
  | case4 x =>
    intro y hy
    exact absurd hy (by simp [findYear])

theorem findYear_complete : ∀ (prev : Option Char) (s : Str),
    (∃ a y b, s = a ++ y ++ b ∧ isYearTok y = true ∧
      boundaryBeforeCtx prev a = true ∧ boundaryAfter b = true) →
    (findYear prev s).isSome = true := by
  intro prev₀ s₀
  induction prev₀, s₀ using findYear.induct with
  | case1 prev c1 c2 c3 c4 rest hcond =>
    intro _
    rw [findYear, if_pos hcond]
    rfl
  | case2 prev c1 c2 c3 c4 rest hcond ih =>
    rintro ⟨a, y, b, hdec, hTok, hB, hA⟩
    rw [findYear, if_neg hcond]
    apply ih
    obtain ⟨d1, d2, d3, d4, rfl⟩ := isYearTok_shape y hTok
    cases a with
    | nil =>
      simp only [List.nil_append, List.cons_append, List.cons.injEq] at hdec
      obtain ⟨h1, h2, h3, h4, h5⟩ := hdec
      subst h1; subst h2; subst h3; subst h4; subst h5
      exact absurd (by simp_all [boundaryBeforeCtx, prevOk]) hcond
    | cons c a' =>
      rw [List.cons_append, List.cons_append] at hdec
      injection hdec with h1 h2
      subst h1
      refine ⟨a', [d1, d2, d3, d4], b, h2, hTok, ?_, hA⟩
      rw [← boundaryBeforeCtx_cons prev]
      exact hB
  | case3 x c cs hshape ih =>
    rintro ⟨a, y, b, hdec, hTok, hB, hA⟩
    obtain ⟨d1, d2, d3, d4, rfl⟩ := isYearTok_shape y hTok
    exfalso
    have hlen : (c :: cs).length < 4 := by
      rcases cs with _ | ⟨d, _ | ⟨e, _ | ⟨f, tl⟩⟩⟩
      · simp
      · simp
      · simp
      · exact absurd rfl (hshape d e f tl)
    rw [hdec] at hlen
    simp [List.length_append] at hlen
    omega
  | case4 x =>
    rintro ⟨a, y, b, hdec, hTok, hB, hA⟩
    obtain ⟨d1, d2, d3, d4, rfl⟩ := isYearTok_shape y hTok
    simp at hdec

theorem splitNl_ne_nil (s : Str) : splitNl s ≠ [] := by
  cases s with
  | nil => simp [splitNl]
  | cons c cs =>
    simp only [splitNl]
    split_ifs
    · simp
    · cases h : splitNl cs <;> simp [h]

theorem splitNl_nl (b : Str) : splitNl ('\n' :: b) = [] :: splitNl b := by
  simp [splitNl]

theorem splitNl_cons_of_ne (c : Char) (b : Str) (h : c ≠ '\n') :
    splitNl (c :: b) = List.modifyHead (fun l => c :: l) (splitNl b) := by
  simp only [splitNl, if_neg h]
  cases hb : splitNl b with
  | nil => exact absurd hb (splitNl_ne_nil b)
  | cons l ls => simp

theorem splitNl_append_of_nonl (a b : Str) (h : '\n' ∉ a) :
    splitNl (a ++ b) = List.modifyHead (fun l => a ++ l) (splitNl b) := by
  induction a with
  | nil =>
    cases hb : splitNl b with
    | nil => exact absurd hb (splitNl_ne_nil b)
    | cons l ls => simp [hb]
  | cons c a' ih =>
    have hc : c ≠ '\n' := by
      intro hc
      exact h (by simp [hc])
    have ha' : '\n' ∉ a' := fun hm => h (List.mem_cons_of_mem _ hm)
    rw [List.cons_append, splitNl_cons_of_ne _ _ hc, ih ha']
    cases hb : splitNl b with
    | nil => exact absurd hb (splitNl_ne_nil b)
    | cons l ls => simp

theorem bulletBody_nonl (e : Entry) (h : entryNlFree e) : '\n' ∉ bulletBody e := by
  obtain ⟨h1, h2, h3⟩ := h
  simp +decide [bulletBody, List.mem_append, h1, h2, h3]

theorem metaFree_dotLit (p : Str)
    (h : p.all (fun c => !isRegexMeta c) = true) :
    isDotLit p = true ∧ '.' ∉ p := by
  simp only [List.all_eq_true, Bool.not_eq_true'] at h
  constructor
  · simp only [isDotLit, List.all_eq_true]
    intro c hc
    simp [h c hc]
  · intro hdot
    exact absurd (h '.' hdot) (by decide)

theorem pdContains_metaFree (reSearch : Str → Str → Bool) (pat s : Str)
    (h : pat.all (fun c => !isRegexMeta c) = true) :
    pdContains reSearch pat s = decide (pat <:+: s) := by
  obtain ⟨hdot, hnodot⟩ := metaFree_dotLit pat h
  rw [pdContains, if_pos hdot]
  cases hds : dotSearch pat s with
  | false =>
    have hn : ¬ pat <:+: s := fun hin => by
      rw [(dotSearch_substr_iff pat hnodot s).mpr hin] at hds
      exact Bool.noConfusion hds
    simp [hn]
  | true =>
    simp [(dotSearch_substr_iff pat hnodot s).mp hds]

/-- C7 counterexample: pandas `str.contains` interprets its pattern as a
regex (`regex=True` is the default), so the active country pattern
`"u.a"` matches the entry country `"USA"` (the wildcard `.` matches the
`s`) even though `"u.a"` is not a substring of `"usa"`: `filter_data`
keeps an entry that the claim's substring conjunction excludes.  The
pattern is dot-literal, so this behaviour is pinned whatever the
abstract engine. -/
theorem c7_substring_cex :
    filter_data (fun _ _ => false)
      [Entry.mk "A".data "d".data "Movie".data "USA".data "Action".data "2010".data]
      (Filters.mk none (some "u.a".data) none none) =
      [Entry.mk "A".data "d".data "Movie".data "USA".data "Action".data "2010".data] ∧
    ¬ ("u.a".data <:+: lowerStr "USA".data) ∧
    ([Entry.mk "A".data "d".data "Movie".data "USA".data "Action".data
        "2010".data].filter
      (fun e => matchesFilters (Filters.mk none (some "u.a".data) none none) e)) =
      [] := by
  decide

/-- C7 amended: country and genre are matched by pandas `str.contains`
with its default `regex=True`, i.e. the pattern is a regular expression.
Whenever the active country and genre patterns contain no regex
metacharacters — as every pattern built from plain words does — this is
exactly the case-insensitive substring match the claim states, and
`filter_data` returns exactly the entries satisfying the conjunction of
all active predicates (type case-insensitive equality, country and
genre case-insensitive substring, release_year string equality; AND,
not OR); a metacharacter pattern such as `"u.a"` can instead match
entries it is not a substring of. -/
theorem c7_filter_conjunction (reSearch : Str → Str → Bool)
    (catalog : List Entry) (f : Filters)
    (hco : ∀ v, f.country = some v →
      (lowerStr v).all (fun c => !isRegexMeta c) = true)
    (hli : ∀ v, f.listed_in = some v →
      (lowerStr v).all (fun c => !isRegexMeta c) = true) :
    filter_data reSearch catalog f =
      catalog.filter (fun e => matchesFilters f e) ∧
    ∀ e : Entry, e ∈ filter_data reSearch catalog f ↔
      e ∈ catalog ∧ matchesFilters f e = true := by
  have hpred : ∀ e, matchesFiltersRe reSearch f e = matchesFilters f e := by
    intro e
    obtain ⟨ty, co, li, ry⟩ := f
    rcases co with _ | v2 <;> rcases li with _ | v3 <;>
      simp_all [matchesFiltersRe, matchesFilters, pdContains_metaFree]
  constructor
  · rw [filter_data_eq_filter]
    exact List.filter_congr (fun e _ => hpred e)
  · intro e
    rw [filter_data_eq_filter, List.mem_filter, hpred e]

/-- Witness for C7 amended: a metacharacter-free country pattern behaves
as a substring filter on a concrete catalog. -/
theorem c7_filter_conjunction_witness :
    ((lowerStr "us".data).all (fun c => !isRegexMeta c) = true) ∧
    filter_data (fun _ _ => false) [sampleEntry]
        (Filters.mk none (some "us".data) none none) =
      [sampleEntry].filter
        (fun e => matchesFilters (Filters.mk none (some "us".data) none none) e) :=
  ⟨by decide,
    (c7_filter_conjunction (fun _ _ => false) [sampleEntry]
      (Filters.mk none (some "us".data) none none)
      (by intro v hv; injection hv with h; rw [← h]; decide)
      (by intro v hv; simp at hv)).1⟩

/-- C8: applying `filter_data` with all four filter fields
unconstrained returns the full catalog unchanged, and the result of
`filter_data` is always an ordered subsequence (sublist) of the
catalog — whatever the regex engine. -/
theorem c8_unconstrained_and_sublist :
    (∀ (reSearch : Str → Str → Bool) (catalog : List Entry),
      filter_data reSearch catalog emptyFilters = catalog) ∧
    ∀ (reSearch : Str → Str → Bool) (catalog : List Entry) (f : Filters),
      List.Sublist (filter_data reSearch catalog f) catalog := by
  constructor
  · intro reSearch catalog
    rw [filter_data_eq_filter]
    simp [matchesFiltersRe, emptyFilters]
  · intro reSearch catalog f
    rw [filter_data_eq_filter]
    exact List.filter_sublist catalog

/-- C2 (code bug): the spec says type detection inspects the lowercased
query, but src/app.py lines 55-58 test `"movie" in user_query` on the
original query (only the spaCy document is built from the lowercased
text).  On the query `"Movie"` the lowercased form contains `"movie"`,
yet `extract_filters` leaves `type` unconstrained, whatever the NLP
collaborator returns. -/
theorem c2_type_detection_failing :
    ("movie".data <:+: lowerStr "Movie".data) ∧
    ∀ nlp : Str → Doc, (extract_filters nlp "Movie".data).type = none := by
  refine ⟨by decide, fun nlp => ?_⟩
  simp +decide [extract_filters, extractFromDoc]

/-- C1 (code bug): on two entries of equal similarity,
`np.argsort(sims)[-5:][::-1]` (modelled by `rank`, with the stable
ascending argsort) puts the higher original index first, not the lower
one as the spec's tie-break policy requires. -/
theorem c1_tie_break_failing :
    ([(1 : ℚ), 1].getD 0 0 = [(1 : ℚ), 1].getD 1 0) ∧
    rank [(1 : ℚ), 1] = [1, 0] := by decide

/-- C3 counterexample: a completed generator run with a non-zero exit
status is not treated as a failure — `query_mistral` returns the
stripped stdout (here empty), which contains neither a diagnostic nor
the prompt; and even a successful run is returned stripped, not raw. -/
theorem c3_nonzero_exit_cex :
    query_mistral "hi".data (.completed 1 "".data) = [] ∧
    ¬ ("hi".data <:+: query_mistral "hi".data (.completed 1 "".data)) ∧
    query_mistral "hi".data (.completed 0 " ok\n".data) = "ok".data := by decide

/-- C3 amended: `query_mistral` never raises; a completed run — whatever
its exit status — returns the stripped stdout, and a raised exception
(timeouts included) is recovered as a diagnostic string containing both
the rendered error and the original prompt. -/
theorem c3_generator_failure_amended (prompt : Str) :
    (∀ (rc : Int) (out : Str),
      query_mistral prompt (.completed rc out) = pyStrip out) ∧
    ∀ e : Str,
      query_mistral prompt (.raised e) =
        "⚠️ Mistral call failed:\n\n".data ++ e ++ "\n\nPrompt was:\n".data ++ prompt ∧
      e <:+: query_mistral prompt (.raised e) ∧
      prompt <:+: query_mistral prompt (.raised e) := by
  refine ⟨fun rc out => rfl, fun e => ⟨rfl, ?_, ?_⟩⟩
  · exact ⟨"⚠️ Mistral call failed:\n\n".data, "\n\nPrompt was:\n".data ++ prompt,
      by simp [query_mistral, List.append_assoc]⟩
  · exact ⟨"⚠️ Mistral call failed:\n\n".data ++ e ++ "\n\nPrompt was:\n".data, [],
      by simp [query_mistral, List.append_assoc]⟩

/-- C4 counterexample: the query `"19999"` contains the 4-digit
substring `"1999"` (between 1900 and 2099), but the regex
`\b(19|20)\d{2}\b` requires word boundaries, so `extract_filters`
leaves `release_year` unconstrained. -/
theorem c4_year_substring_cex :
    ("1999".data <:+: "19999".data) ∧
    (extract_filters stubNlp "19999".data).release_year = none := by decide

theorem bulletBody_head (e : Entry) : (bulletBody e).head? = some '-' := by
  have h : ("- **".data).head? = some '-' := by decide
  simp [bulletBody, h]

theorem prompt_lines (q : Str) (e0 e1 e2 : Entry) (rs' : List Entry)
    (hq : '\n' ∉ q) (h0 : entryNlFree e0) (h1 : entryNlFree e1)
    (h2 : entryNlFree e2) :
    splitNl (build_prompt q (e0 :: e1 :: e2 :: rs')) =
      ["You are a helpful Netflix assistant. User asked: \"".data ++ (q ++ ['"', '.']),
       "Based on the database, here are some matching titles:".data,
       [],
       bulletBody e0, bulletBody e1, bulletBody e2,
       [],
       "Give a short natural reply to the user.".data] := by
  have L1 : "\".\n".data = '"' :: '.' :: '\n' :: ([] : Str) := by decide
  have L2 : "Based on the database, here are some matching titles:\n\n".data =
      "Based on the database, here are some matching titles:".data ++
        '\n' :: '\n' :: ([] : Str) := by decide
  have L3 : "\nGive a short natural reply to the user.".data =
      '\n' :: "Give a short natural reply to the user.".data := by decide
  have L4 : "\n".data = ['\n'] := by decide
  have hb : build_prompt q (e0 :: e1 :: e2 :: rs') =
      "You are a helpful Netflix assistant. User asked: \"".data ++
        (q ++ ('"' :: '.' :: '\n' ::
          ("Based on the database, here are some matching titles:".data ++
            ('\n' :: '\n' ::
              (bulletBody e0 ++ ('\n' ::
                (bulletBody e1 ++ ('\n' ::
                  (bulletBody e2 ++ ('\n' :: '\n' ::
                    "Give a short natural reply to the user.".data)))))))))) := by
    simp [build_prompt, bulletLine, bulletBody, L1, L2, L3, L4]
  have hF : splitNl "Give a short natural reply to the user.".data =
      ["Give a short natural reply to the user.".data] := by decide
  rw [hb,
    splitNl_append_of_nonl _ _ (by decide),
    splitNl_append_of_nonl _ _ hq,
    splitNl_cons_of_ne _ _ (by decide),
    splitNl_cons_of_ne _ _ (by decide),
    splitNl_nl,
    splitNl_append_of_nonl _ _ (by decide),
    splitNl_nl, splitNl_nl,
    splitNl_append_of_nonl _ _ (bulletBody_nonl e0 h0),
    splitNl_nl,
    splitNl_append_of_nonl _ _ (bulletBody_nonl e1 h1),
    splitNl_nl,
    splitNl_append_of_nonl _ _ (bulletBody_nonl e2 h2),
    splitNl_nl, splitNl_nl, hF]
  simp

/-- C4 amended: for every query containing a 4-digit token `19xx`/`20xx`
delimited by word boundaries (not adjacent to letters, digits or
underscores), `extract_filters` sets `release_year` to the LEFTMOST such
delimited token of the query — the returned token occurs delimited at a
position no later than every other delimited year token; `release_year`
is `None` exactly when no such delimited token occurs. -/
theorem c4_year_token_amended (nlp : Str → Doc) (q : Str) :
    (∀ y, (extract_filters nlp q).release_year = some y →
        isYearTok y = true ∧
          ∃ a b, q = a ++ y ++ b ∧ boundaryBefore a = true ∧
            boundaryAfter b = true ∧
            ∀ a' y' b', q = a' ++ y' ++ b' → isYearTok y' = true →
              boundaryBefore a' = true → boundaryAfter b' = true →
              a.length ≤ a'.length) ∧
    ((extract_filters nlp q).release_year = none ↔ ¬ HasYearToken q) := by
  have hry : (extract_filters nlp q).release_year = findYear none q := rfl
  constructor
  · intro y hy
    rw [hry] at hy
    obtain ⟨hTok, a, b, hdec, hB, hA, hmin⟩ := findYear_sound none q y hy
    rw [boundaryBeforeCtx_none] at hB
    refine ⟨hTok, a, b, hdec, hB, hA, ?_⟩
    intro a' y' b' hdec' hTok' hB' hA'
    rw [← boundaryBeforeCtx_none] at hB'
    exact hmin a' y' b' hdec' hTok' hB' hA'
  · rw [hry]
    constructor
    · rintro hnone ⟨a, y, b, hdec, hTok, hB, hA⟩
      have hs := findYear_complete none q
        ⟨a, y, b, hdec, hTok, by rw [boundaryBeforeCtx_none]; exact hB, hA⟩
      rw [hnone] at hs
      exact absurd hs (by simp)
    · intro hnot
      by_contra hne
      obtain ⟨y, hy⟩ := Option.ne_none_iff_exists'.mp hne
      obtain ⟨hTok, a, b, hdec, hB, hA, -⟩ := findYear_sound none q y hy
      exact hnot ⟨a, y, b, hdec, hTok,
        by rw [← boundaryBeforeCtx_none]; exact hB, hA⟩

/-- Witness for C4 amended: on the query `"1999 2005"` the extractor
returns `release_year = "1999"`, the leftmost boundary-delimited year
token (position-minimal among all delimited tokens, so `"2005"` is
ruled out). -/
theorem c4_year_token_amended_witness :
    (extract_filters stubNlp "1999 2005".data).release_year =
      some "1999".data ∧
    (isYearTok "1999".data = true ∧
      ∃ a b, "1999 2005".data = a ++ "1999".data ++ b ∧
        boundaryBefore a = true ∧ boundaryAfter b = true ∧
        ∀ a' y' b', "1999 2005".data = a' ++ y' ++ b' → isYearTok y' = true →
          boundaryBefore a' = true → boundaryAfter b' = true →
          a.length ≤ a'.length) :=
  ⟨by decide,
    (c4_year_token_amended stubNlp "1999 2005".data).1 "1999".data (by decide)⟩

/-- C5: whenever the semantic fallback runs, it returns exactly
`min 5 (catalog size)` entries, in an order of non-increasing cosine
similarity (the entries are the catalog rows at the ranked indices, and
along `rank sims` the similarities never increase). -/
theorem c5_fallback_size_and_order (catalog : List Entry) (sims : List ℚ)
    (h : sims.length = catalog.length) :
    (semanticFallback catalog sims).length = min 5 catalog.length ∧
    List.Pairwise (fun i j => sims.getD j 0 ≤ sims.getD i 0) (rank sims) := by
  constructor
  · simp only [semanticFallback, List.length_map, rank, List.length_reverse,
      List.length_drop, argsort, List.length_insertionSort, List.length_range]
    omega
  · have hs : List.Pairwise (rankLE sims) (argsort sims) :=
      List.sorted_insertionSort (rankLE sims) (List.range sims.length)
    have hd : List.Pairwise (rankLE sims) ((argsort sims).drop (sims.length - 5)) :=
      List.Pairwise.sublist (List.drop_sublist _ _) hs
    rw [rank, List.pairwise_reverse]
    refine hd.imp ?_
    intro i j hij
    rcases hij with h1 | ⟨h1, _⟩
    · exact le_of_lt h1
    · exact le_of_eq h1

/-- Witness for C5: a 3-entry catalog yields exactly 3 fallback entries
in non-increasing similarity order. -/
theorem c5_fallback_size_and_order_witness :
    ([(1 : ℚ), 3, 2].length = (List.replicate 3 (default : Entry)).length) ∧
    ((semanticFallback (List.replicate 3 (default : Entry)) [(1 : ℚ), 3, 2]).length =
        min 5 (List.replicate 3 (default : Entry)).length ∧
      List.Pairwise (fun i j => [(1 : ℚ), 3, 2].getD j 0 ≤ [(1 : ℚ), 3, 2].getD i 0)
        (rank [(1 : ℚ), 3, 2])) :=
  ⟨rfl, c5_fallback_size_and_order (List.replicate 3 default) [(1 : ℚ), 3, 2] rfl⟩

/-- C6: in `chat`, the semantic fallback is invoked if and only if the
structured filter result is empty; when the filtered result is
non-empty, the results are exactly the filtered entries, the prompt is
built from them, and the similarity profile (hence the query embedding)
is never consulted. -/
theorem c6_fallback_iff_empty (reSearch : Str → Str → Bool) (env : Env) (q : Str) :
    (filter_data reSearch env.catalog (extract_filters env.nlp q) = [] →
      chatResults reSearch env q = semanticFallback env.catalog (env.sims q)) ∧
    (filter_data reSearch env.catalog (extract_filters env.nlp q) ≠ [] →
      chatResults reSearch env q =
        filter_data reSearch env.catalog (extract_filters env.nlp q) ∧
      chatPrompt reSearch env q =
        build_prompt q (filter_data reSearch env.catalog (extract_filters env.nlp q)) ∧
      ∀ sims' : Str → List ℚ,
        chatResults reSearch (Env.mk env.catalog env.nlp sims') q =
          chatResults reSearch env q) := by
  constructor
  · intro h
    simp [chatResults, h]
  · intro h
    have he : (filter_data reSearch env.catalog (extract_filters env.nlp q)).isEmpty
        = false := by
      simp [List.isEmpty_iff, h]
    refine ⟨?_, ?_, ?_⟩
    · simp [chatResults, he]
    · simp [chatPrompt, chatResults, he]
    · intro sims'
      simp [chatResults, he]

/-- Witness for C6: with an empty catalog the filtered result is empty,
and the chat results are the semantic fallback (itself empty here). -/
theorem c6_fallback_iff_empty_witness :
    chatResults (fun _ _ => false) (Env.mk [] stubNlp (fun _ => [])) "q".data =
      semanticFallback [] ((fun _ : Str => ([] : List ℚ)) "q".data) :=
  (c6_fallback_iff_empty (fun _ _ => false) (Env.mk [] stubNlp (fun _ => []))
    "q".data).1 (by decide)

/-- C10: with a fixed catalog and deterministic collaborators the
pipeline is deterministic — any two environments that agree on the
catalog, on the NLP analysis of the (lowercased) query, and on the
similarity profile of the query produce identical filters, identical
result sets and an identical prompt. -/
theorem c10_pipeline_deterministic (reSearch : Str → Str → Bool)
    (env1 env2 : Env) (q : Str)
    (hcat : env1.catalog = env2.catalog)
    (hnlp : env1.nlp (lowerStr q) = env2.nlp (lowerStr q))
    (hsims : env1.sims q = env2.sims q) :
    extract_filters env1.nlp q = extract_filters env2.nlp q ∧
    filter_data reSearch env1.catalog (extract_filters env1.nlp q) =
      filter_data reSearch env2.catalog (extract_filters env2.nlp q) ∧
    chatResults reSearch env1 q = chatResults reSearch env2 q ∧
    chatPrompt reSearch env1 q = chatPrompt reSearch env2 q := by
  have h1 : extract_filters env1.nlp q = extract_filters env2.nlp q := by
    unfold extract_filters
    rw [hnlp]
  refine ⟨h1, ?_, ?_, ?_⟩
  · rw [h1, hcat]
  · unfold chatResults
    rw [h1, hcat, hsims]
  · unfold chatPrompt chatResults
    rw [h1, hcat, hsims]

/-- Witness for C10: two environments whose NLP collaborators differ on
other inputs but agree on this query produce the same result set. -/
theorem c10_pipeline_deterministic_witness :
    chatResults (fun _ _ => false) (Env.mk [] stubNlp (fun _ => [])) "q".data =
      chatResults (fun _ _ => false)
        (Env.mk [] (fun s => if s = [] then Doc.mk [] ["kids".data] else Doc.mk [] [])
          (fun _ => [])) "q".data :=
  (c10_pipeline_deterministic (fun _ _ => false) (Env.mk [] stubNlp (fun _ => []))
    (Env.mk [] (fun s => if s = [] then Doc.mk [] ["kids".data] else Doc.mk [] [])
      (fun _ => []))
    "q".data rfl (by decide) rfl).2.2.1

/-- C9: on an empty result set, `build_prompt` returns a message
containing an explicit no-matching-results indication together with the
query; on a result set with more than 3 entries (whose rendered fields
are newline-free, as is the query) the prompt contains exactly 3
bulleted lines — the lines starting with `-` are precisely the rendered
`- **title** (release_year): description` lines of the first 3 entries,
in order. -/
theorem c9_prompt_empty_and_top3 :
    (∀ q : Str,
      "no matching results".data <:+: build_prompt q [] ∧
      q <:+: build_prompt q []) ∧
    (∀ (q : Str) (rs : List Entry), 3 < rs.length → '\n' ∉ q →
      (∀ e ∈ rs.take 3, entryNlFree e) →
      (splitNl (build_prompt q rs)).filter (fun l => l.head? = some '-') =
        (rs.take 3).map bulletBody ∧
      ((splitNl (build_prompt q rs)).filter (fun l => l.head? = some '-')).length = 3) := by
  constructor
  · intro q
    have hB : "'\nThere were no matching results in the Netflix database.".data =
        "'\nThere were ".data ++ "no matching results".data ++
          " in the Netflix database.".data := by decide
    constructor
    · refine ⟨"User asked: '".data ++ q ++ "'\nThere were ".data,
        " in the Netflix database.".data, ?_⟩
      simp [build_prompt, hB]
    · exact ⟨"User asked: '".data,
        "'\nThere were no matching results in the Netflix database.".data,
        by simp [build_prompt]⟩
  · intro q rs hlen hq hnl
    rcases rs with _ | ⟨e0, _ | ⟨e1, _ | ⟨e2, _ | ⟨e3, rest⟩⟩⟩⟩ <;> simp at hlen
    have h0 : entryNlFree e0 := hnl e0 (by simp)
    have h1 : entryNlFree e1 := hnl e1 (by simp)
    have h2 : entryNlFree e2 := hnl e2 (by simp)
    rw [prompt_lines q e0 e1 e2 (e3 :: rest) hq h0 h1 h2]
    have hY : ("You are a helpful Netflix assistant. User asked: \"".data).head? =
        some 'Y' := by decide
    have hf : (["You are a helpful Netflix assistant. User asked: \"".data ++
          (q ++ ['"', '.']),
        "Based on the database, here are some matching titles:".data,
        [],
        bulletBody e0, bulletBody e1, bulletBody e2,
        [],
        "Give a short natural reply to the user.".data] : List Str).filter
          (fun l => l.head? = some '-') =
        [bulletBody e0, bulletBody e1, bulletBody e2] := by
      simp +decide [List.filter, List.head?_append, hY, bulletBody_head]
    rw [hf]
    constructor
    · simp
    · rfl

/-- Witness for C9: a 4-entry catalog of newline-free entries yields a
prompt whose bulleted lines are exactly the first 3 rendered entries. -/
theorem c9_prompt_empty_and_top3_witness :
    (3 < (List.replicate 4 sampleEntry).length) ∧
    ((splitNl (build_prompt "q".data (List.replicate 4 sampleEntry))).filter
        (fun l => l.head? = some '-') =
      ((List.replicate 4 sampleEntry).take 3).map bulletBody ∧
      ((splitNl (build_prompt "q".data (List.replicate 4 sampleEntry))).filter
        (fun l => l.head? = some '-')).length = 3) :=
  ⟨by decide, c9_prompt_empty_and_top3.2 "q".data (List.replicate 4 sampleEntry)
    (by decide) (by decide) (by decide)⟩

